import Mathlib

/-!
Shallow embedding of the booking engine of `src/service/event.service.js`
(WebEventBE). Times are epoch milliseconds (`Int`), JS numeric values are
modelled as `Int`, and JS `null`/`undefined` values are modelled with
`Option`/`JsField`. JS truthiness is modelled explicitly: for numbers both
`null` and `0` are falsy; for date-string inputs any supplied value is truthy.
-/

namespace WebEvent

/-- One hour in epoch milliseconds (`duration_hours * 3600 * 1000`). -/
def hourMs : Int := 3600 * 1000

/-- One day in epoch milliseconds. -/
def dayMs : Int := 24 * 3600 * 1000

/-- Midnight flooring `new Date(t).setHours(0,0,0,0)` of an epoch-ms time, modelled in UTC. -/
def dayStart (t : Int) : Int := t - t % dayMs

/-- JS truthiness of a nullable number: `null`/`undefined` and `0` are falsy. -/
def truthyInt : Option Int → Bool
  | none => false
  | some n => n != 0

/-- JS truthiness of a nullable id (a non-negative number). -/
def truthyNat : Option Nat → Bool
  | none => false
  | some n => n != 0

/-- JS `a || b` for a nullable number `a`: yields `b` when `a` is null or 0. -/
def jsOr (a : Option Int) (b : Int) : Int :=
  match a with
  | none => b
  | some n => if n = 0 then b else n

/-- JS `a || b` for a nullable string `a`: yields `b` when `a` is null or empty. -/
def jsOrStr (a : Option String) (b : String) : String :=
  match a with
  | none => b
  | some s => if s = "" then b else s

/-- JS `s?.trim() || null` for a nullable string. -/
def jsTrimOrNull (a : Option String) : Option String :=
  match a with
  | none => none
  | some s => if s.trim = "" then none else some s.trim

/-- A field of a JSON update payload: absent (`undefined`), explicit `null`,
or a value.  Update code distinguishes `undefined` (leave the column alone)
from `null` (clear the column). -/
inductive JsField (α : Type) where
  | undef : JsField α
  | null : JsField α
  | val : α → JsField α
  deriving Repr, DecidableEq

/-- The value of a `JsField`, when it carries one. -/
def JsField.toOption {α : Type} : JsField α → Option α
  | .val a => some a
  | _ => none

/-- JS truthiness of a numeric payload field. -/
def jfTruthyInt : JsField Int → Bool
  | .val n => n != 0
  | _ => false

/-- JS truthiness of an id payload field. -/
def jfTruthyNat : JsField Nat → Bool
  | .val n => n != 0
  | _ => false

/-- JS truthiness of a date-string payload field: any supplied date is truthy. -/
def jfDateTruthy : JsField Int → Bool
  | .val _ => true
  | _ => false

/-- The epoch value `new Date(x)` yields for a date field: `null` reads as
epoch 0, a value as itself (`undefined` gives an invalid date, handled at
the use sites). -/
def jfDateVal : JsField Int → Int
  | .val t => t
  | _ => 0

/-- Row of the `Room` table (columns read by the event service). -/
structure RoomRec where
  room_id : Nat
  is_active : Bool
  status : String
  base_price : Option Int
  hourly_rate : Option Int
  room_name : String
  deriving Repr, DecidableEq

/-- Row of the `Variation` table (columns read by the event service). -/
structure VariationRec where
  variation_id : Nat
  is_active : Bool
  base_price : Option Int
  variation_name : String
  deriving Repr, DecidableEq

/-- Row of the `EventType` table (columns read by the event service). -/
structure EventTypeRec where
  type_id : Nat
  is_active : Bool
  deriving Repr, DecidableEq

/-- Row of the `Event` table. -/
structure EventRec where
  event_id : Nat
  event_name : String
  description : Option String
  start_time : Option Int
  end_time : Option Int
  event_date : Option Int
  estimated_cost : Option Int
  final_cost : Option Int
  room_service_fee : Option Int
  status : String
  account_id : Option Nat
  room_id : Option Nat
  event_type_id : Option Nat
  deriving Repr, DecidableEq

/-- Row of the `EventService` table (a stored service line). -/
structure EventServiceRec where
  event_service_id : Nat
  event_id : Nat
  service_id : Nat
  variation_id : Option Nat
  quantity : Int
  custom_price : Option Int
  notes : Option String
  status : String
  scheduled_time : Option Int
  duration_hours : Option Int
  deriving Repr, DecidableEq

/-- A service line as supplied in a create/update payload. -/
structure ServiceLine where
  service_id : Nat
  variation_id : Option Nat
  quantity : Option Int
  custom_price : Option Int
  notes : Option String
  status : Option String
  scheduled_time : Option Int
  duration_hours : Option Int
  deriving Repr, DecidableEq

/-- Row of the `Invoice` table.  The invoice number and the issue/due dates are
derived from the wall clock (`Date.now()`) and are not modelled. -/
structure InvoiceRec where
  invoice_id : Nat
  total_amount : Int
  event_id : Nat
  account_id : Option Nat
  status : String
  deriving Repr, DecidableEq

/-- Row of the `InvoiceDetail` table.  `unit_price`/`subtotal` are nullable
because the ROOM line copies `room.base_price` verbatim. -/
structure InvoiceDetailRec where
  invoice_id : Nat
  item_name : String
  quantity : Int
  unit_price : Option Int
  subtotal : Option Int
  item_type : String
  service_id : Option Nat
  variation_id : Option Nat
  deriving Repr, DecidableEq

/-- Row of the `Payment` table (columns read by `deleteEvent`). -/
structure PaymentRec where
  payment_id : Nat
  event_id : Nat
  deriving Repr, DecidableEq

/-- Row of the `Reviews` table (columns read by `deleteEvent`). -/
structure ReviewRec where
  review_id : Nat
  event_id : Nat
  deriving Repr, DecidableEq

/-- A notification handed to the external notifier. -/
structure NotificationRec where
  account_id : Nat
  title : String
  message : String
  type : String
  deriving Repr, DecidableEq

/-- The database state visible to the event service.  `accounts` holds
account ids; `nextEventId`/`nextInvoiceId`/`nextEventServiceId` model the
autoincrement counters. -/
structure Store where
  accounts : List Nat
  rooms : List RoomRec
  variations : List VariationRec
  eventTypes : List EventTypeRec
  events : List EventRec
  eventServices : List EventServiceRec
  invoices : List InvoiceRec
  invoiceDetails : List InvoiceDetailRec
  payments : List PaymentRec
  reviews : List ReviewRec
  notifications : List NotificationRec
  nextEventId : Nat
  nextInvoiceId : Nat
  nextEventServiceId : Nat
  deriving Repr, DecidableEq

/-- Result envelope of `checkVariationAvailability` (`createValidationResult`):
a success flag, error strings, and the conflicting records attached on the
busy branch. -/
structure AvailResult where
  isValid : Bool
  errors : List String
  conflictingEvents : List EventServiceRec
  deriving Repr, DecidableEq

/-- The conflicting candidate list built by `checkVariationAvailability`
(event.service.js lines 154-173): the stored rows surviving the Prisma-query
prefilter (same variation, status CONFIRMED, `scheduled_time <= endTime`) and
then the in-JS strict-overlap filter
(`startTime < evEnd && endTime > evStart`). -/
def conflictingOf (stored : List EventServiceRec) (variation_id : Option Nat)
    (startTime endTime : Int) : List EventServiceRec :=
  (stored.filter fun ev =>
    decide (ev.variation_id = variation_id) &&
    decide (ev.status = "CONFIRMED") &&
    (match ev.scheduled_time with
     | some t => decide (t ≤ endTime)
     | none => false)).filter fun ev =>
      let evStart := ev.scheduled_time.getD 0
      let evEnd := evStart + (ev.duration_hours.getD 0) * hourMs
      decide (startTime < evEnd) && decide (endTime > evStart)

/-- Embedding of `checkVariationAvailability` (event.service.js lines 135-186).
The stored `EventService` rows stand for the table the Prisma query reads; the
query prefilter (same variation, status CONFIRMED, `scheduled_time <= endTime`)
and the in-JS strict-overlap filter are both modelled. -/
def checkVariationAvailability (stored : List EventServiceRec)
    (variations : List VariationRec) (variation_id : Option Nat)
    (scheduled_time : Option Int) (duration_hours : Option Int) : AvailResult :=
  if !(truthyNat variation_id && scheduled_time.isSome && truthyInt duration_hours) then
    { isValid := false
      errors := ["Variation ID, scheduled time, and duration are required"]
      conflictingEvents := [] }
  else
    let startTime := scheduled_time.getD 0
    let endTime := startTime + duration_hours.getD 0 * hourMs
    match variations.find? (fun v => decide (some v.variation_id = variation_id)) with
    | none =>
        { isValid := false, errors := ["Variation not found or inactive"]
          conflictingEvents := [] }
    | some v =>
        if !v.is_active then
          { isValid := false, errors := ["Variation not found or inactive"]
            conflictingEvents := [] }
        else
          let conflicting := conflictingOf stored variation_id startTime endTime
          if 0 < conflicting.length then
            { isValid := false
              errors := ["Variation is busy during the requested time slot"]
              conflictingEvents := conflicting }
          else
            { isValid := true, errors := [], conflictingEvents := [] }

/-- Modelled from the spec: `checkRoomAvailability` lives in
`service/room.service.js`, which is not under src/.  Per spec section 4.2 the
candidates are the CONFIRMED bookings of the room, a booking's window is its
stored time interval, the booking being updated (`excludeId`) is skipped, and
strict overlap (`proposedStart < candidateEnd AND proposedEnd > candidateStart`)
is a conflict.  Only success/failure is consumed by the event service here. -/
def checkRoomAvailabilitySpec (st : Store) (rid : Nat) (startTime durationH : Int)
    (excludeId : Option Nat) : Bool :=
  let endTime := startTime + durationH * hourMs
  st.events.all fun ev =>
    !(decide (ev.room_id = some rid) && decide (ev.status = "CONFIRMED") &&
      decide (excludeId ≠ some ev.event_id) &&
      (match ev.start_time, ev.end_time with
       | some s, some e => decide (startTime < e) && decide (endTime > s)
       | _, _ => false))

/-- Modelled from the spec: `createNotification` lives in
`utils/notification.js`, which is not under src/.  Per spec sections 4.4 and 5
the notifier is best-effort and fire-and-forget: a delivery failure is
swallowed inside the notifier (the notification is simply lost) and never
propagates to the caller, so it cannot abort the surrounding transaction. -/
def createNotification (notifierFails : Bool) (st : Store) (n : NotificationRec) : Store :=
  if notifierFails then st
  else { st with notifications := st.notifications ++ [n] }

/-- Modelled from the spec: `validateEventServiceData` lives in
`service/event_service.service.js`, which is not under src/.  Per spec
section 3 a service line's quantity is at least 1 and per section 4.1 monetary
and duration fields are non-negative and ids are positive; a line failing
these rules is rejected with validation errors and the transaction aborts. -/
def validateEventServiceOk (s : ServiceLine) : Bool :=
  decide (s.service_id ≠ 0) &&
  (match s.quantity with | some q => decide (1 ≤ q) | none => true) &&
  (match s.custom_price with | some c => decide (0 ≤ c) | none => true) &&
  (match s.duration_hours with | some d => decide (0 ≤ d) | none => true)

/-- Cost contribution of one payload service line (event.service.js lines
269-277 and 524-532): `(custom_price || variation.base_price) * (quantity || 1)`
with the variation price looked up only for a truthy `variation_id` and
`variation?.base_price || 0` on the lookup. -/
def serviceCost (variations : List VariationRec) (s : ServiceLine) : Int :=
  let vbp :=
    if truthyNat s.variation_id then
      match variations.find? (fun v => decide (some v.variation_id = s.variation_id)) with
      | some v => v.base_price.getD 0
      | none => 0
    else 0
  jsOr s.custom_price vbp * jsOr s.quantity 1

/-- The create payload (event.service.js lines 191-206).  Date-valued fields
are epoch ms; `null` and absent date fields are conflated as `none` (both are
falsy and both store `null`). -/
structure CreateInput where
  event_name : String
  description : Option String
  start_time : Option Int
  end_time : Option Int
  event_date : Option Int
  estimated_cost : Option Int
  final_cost : Option Int
  room_service_fee : Option Int
  account_id : Option Nat
  room_id : Option Nat
  event_type_id : Option Nat
  status : Option String
  event_services : List ServiceLine
  duration_hours : Option Int
  deriving Repr, DecidableEq

/-- The `calculatedEstimatedCost` of `createEvent` (lines 226-278): the caller
override (`estimated_cost || 0`), plus `room.base_price || 0` and
`hourly_rate * duration_hours` when both are truthy for a truthy `room_id`,
plus each service line's contribution. -/
def createCalculatedCost (st : Store) (i : CreateInput) : Int :=
  jsOr i.estimated_cost 0 +
  (match (if truthyNat i.room_id then
            st.rooms.find? (fun r => decide (some r.room_id = i.room_id))
          else none) with
   | some room =>
       room.base_price.getD 0 +
       (if truthyInt i.duration_hours && truthyInt room.hourly_rate then
          room.hourly_rate.getD 0 * i.duration_hours.getD 0
        else 0)
   | none => 0) +
  (i.event_services.map (serviceCost st.variations)).sum

/-- The `event_date` column written by `createEvent` (lines 286-288):
the supplied date when truthy, otherwise midnight of `start_time`; with both
absent `new Date(undefined)` is invalid and Prisma aborts the transaction. -/
def createEventDate (i : CreateInput) : Option Int :=
  if i.event_date.isSome then i.event_date
  else match i.start_time with
       | some t => some (dayStart t)
       | none => none

/-- The rows inserted by `eventService.createMany` (lines 307-319 and 566-578):
one stored line per payload line, with JS-truthy defaulting of each column and
autoincremented ids starting at `idBase`. -/
def storedLinesOf (eventId idBase : Nat) (lines : List ServiceLine) : List EventServiceRec :=
  lines.mapIdx fun k s =>
    { event_service_id := idBase + k
      event_id := eventId
      service_id := s.service_id
      variation_id := if truthyNat s.variation_id then s.variation_id else none
      quantity := jsOr s.quantity 1
      custom_price := if truthyInt s.custom_price then s.custom_price else none
      notes := jsTrimOrNull s.notes
      status := jsOrStr s.status "CONFIRMED"
      scheduled_time := if s.scheduled_time.isSome then s.scheduled_time else none
      duration_hours := if truthyInt s.duration_hours then s.duration_hours else none }

/-- The ROOM invoice-detail row (lines 342-351 and 602-611): quantity 1 and
`unit_price`/`subtotal` copied verbatim from `room.base_price`. -/
def roomDetail (invId : Nat) (room : RoomRec) : InvoiceDetailRec :=
  { invoice_id := invId
    item_name := room.room_name
    quantity := 1
    unit_price := room.base_price
    subtotal := room.base_price
    item_type := "ROOM"
    service_id := none
    variation_id := none }

/-- The SERVICE invoice-detail row for one payload line (lines 356-379 and
615-638): name and base price from the variation lookup (defaults when the
lookup is falsy or misses), `unit_price = custom_price || base_price`,
`subtotal = unit_price * (quantity || 1)`. -/
def serviceDetail (variations : List VariationRec) (invId : Nat) (s : ServiceLine) :
    InvoiceDetailRec :=
  let vrec :=
    if truthyNat s.variation_id then
      variations.find? (fun v => decide (some v.variation_id = s.variation_id))
    else none
  let vname := match vrec with
    | some v => jsOrStr (some v.variation_name) "Service"
    | none => "Service"
  let vbp := match vrec with
    | some v => v.base_price.getD 0
    | none => 0
  { invoice_id := invId
    item_name := vname
    quantity := jsOr s.quantity 1
    unit_price := some (jsOr s.custom_price vbp)
    subtotal := some (jsOr s.custom_price vbp * jsOr s.quantity 1)
    item_type := "SERVICE"
    service_id := some s.service_id
    variation_id := if truthyNat s.variation_id then s.variation_id else none }

/-- The guard conjunction of `createEvent`'s transaction (lines 216-278 plus
the implicit `event_date` validity of line 288): account exists when supplied,
room exists, is active, AVAILABLE and clear when supplied, event type exists
and is active when supplied, every service line passes validation and (when it
carries a full schedule) its variation availability check, and a usable
event date can be computed.  Each conjunct is an early `return` in the code. -/
def createTxOk (st : Store) (i : CreateInput) : Bool :=
  (!truthyNat i.account_id || st.accounts.contains (i.account_id.getD 0)) &&
  (!truthyNat i.room_id ||
    (match st.rooms.find? (fun r => decide (some r.room_id = i.room_id)) with
     | some r =>
         r.is_active && decide (r.status = "AVAILABLE") &&
         (!(i.start_time.isSome && truthyInt i.duration_hours) ||
           checkRoomAvailabilitySpec st (i.room_id.getD 0) (i.start_time.getD 0)
             (i.duration_hours.getD 0) none)
     | none => false)) &&
  (!truthyNat i.event_type_id ||
    (match st.eventTypes.find? (fun t => decide (some t.type_id = i.event_type_id)) with
     | some t => t.is_active
     | none => false)) &&
  (i.event_services.all fun s =>
    validateEventServiceOk s &&
    (!(truthyNat s.variation_id && s.scheduled_time.isSome && truthyInt s.duration_hours) ||
      (checkVariationAvailability st.eventServices st.variations s.variation_id
        s.scheduled_time s.duration_hours).isValid)) &&
  (createEventDate i).isSome

/-- The `Event` row written by `event.create` (lines 280-303). -/
def createTxEvent (st : Store) (i : CreateInput) : EventRec :=
  { event_id := st.nextEventId
    event_name := i.event_name.trim
    description := jsTrimOrNull i.description
    start_time := i.start_time
    end_time := i.end_time
    event_date := createEventDate i
    estimated_cost := some (createCalculatedCost st i)
    final_cost := if truthyInt i.final_cost then i.final_cost else none
    room_service_fee := if truthyInt i.room_service_fee then i.room_service_fee else none
    status := i.status.getD "PENDING"
    account_id := if truthyNat i.account_id then i.account_id else none
    room_id := if truthyNat i.room_id then i.room_id else none
    event_type_id := if truthyNat i.event_type_id then i.event_type_id else none }

/-- The committed effects of a successful `createEvent` transaction
(lines 280-396): the new event row, its service lines, the invoice with its
detail rows when the computed cost is positive, and the best-effort
confirmation notification for a truthy stored account id. -/
def createTxFinal (st : Store) (i : CreateInput) (notifierFails : Bool) : Store :=
  let newEvent := createTxEvent st i
  let cost := createCalculatedCost st i
  let st1 := { st with
    events := st.events ++ [newEvent]
    eventServices := st.eventServices ++ storedLinesOf newEvent.event_id st.nextEventServiceId i.event_services
    nextEventId := st.nextEventId + 1
    nextEventServiceId := st.nextEventServiceId + i.event_services.length }
  let st2 :=
    if 0 < cost then
      let invId := st.nextInvoiceId
      let inv : InvoiceRec :=
        { invoice_id := invId, total_amount := cost, event_id := newEvent.event_id
          account_id := newEvent.account_id, status := "PENDING" }
      let roomDetails :=
        match (if truthyNat i.room_id then
                 st.rooms.find? (fun r => decide (some r.room_id = i.room_id))
               else none) with
        | some room => [roomDetail invId room]
        | none => []
      { st1 with
        invoices := st1.invoices ++ [inv]
        invoiceDetails := st1.invoiceDetails ++ roomDetails
          ++ i.event_services.map (serviceDetail st.variations invId)
        nextInvoiceId := invId + 1 }
    else st1
  if truthyNat newEvent.account_id then
    createNotification notifierFails st2
      { account_id := newEvent.account_id.getD 0
        title := "Booking Successful"
        message := "Your event \"" ++ newEvent.event_name ++ "\" has been booked successfully!"
        type := "CONFIRMATION" }
  else st2

/-- Embedding of `createEvent`'s transaction (event.service.js lines 215-397):
the guard conjunction models the sequence of early error returns, and a
successful run commits `createTxFinal` and answers with the new event row.
Field validation of the event payload itself (`validateEventData`, whose
helpers live outside src/) precedes the transaction and can only turn
successes into failures, so successful runs are exactly those modelled here
with well-formed payloads. -/
def createEventTx (st : Store) (i : CreateInput) (notifierFails : Bool) :
    Option (Store × EventRec) :=
  if createTxOk st i then some (createTxFinal st i notifierFails, createTxEvent st i)
  else none

/-- The update payload (event.service.js lines 438-453).  Fields whose write
expression distinguishes `undefined` from `null` are `JsField`; fields read
only through truthiness or optional chaining are plain `Option`. -/
structure UpdateInput where
  event_name : Option String
  description : JsField String
  start_time : JsField Int
  end_time : JsField Int
  event_date : Option Int
  estimated_cost : Option Int
  final_cost : JsField Int
  room_service_fee : JsField Int
  account_id : JsField Nat
  room_id : JsField Nat
  event_type_id : JsField Nat
  status : Option String
  event_services : List ServiceLine
  duration_hours : Option Int
  deriving Repr, DecidableEq

/-- The test `room_id && room_id !== existingEvent.room_id` (line 468): the payload
carries a truthy room id different from the stored one. -/
def roomChanged (existing : EventRec) (i : UpdateInput) : Bool :=
  jfTruthyNat i.room_id && decide (i.room_id.toOption ≠ existing.room_id)

/-- The `calculatedEstimatedCost` of `updateEvent` (lines 467-533): it starts from
`estimated_cost || existingEvent.estimated_cost || 0`, is reset to the new
room's `base_price || 0` plus its hourly component when the room changes, and
each payload service line's contribution is added on top. -/
def updateCalculatedCost (st : Store) (existing : EventRec) (i : UpdateInput) : Int :=
  let base := jsOr i.estimated_cost (jsOr existing.estimated_cost 0)
  let afterRoom :=
    if roomChanged existing i then
      match st.rooms.find? (fun r => decide (i.room_id.toOption = some r.room_id)) with
      | some room =>
          room.base_price.getD 0 +
          (if truthyInt i.duration_hours && truthyInt room.hourly_rate then
             room.hourly_rate.getD 0 * i.duration_hours.getD 0
           else 0)
      | none => base
    else base
  afterRoom + (i.event_services.map (serviceCost st.variations)).sum

/-- The guard conjunction of `updateEvent`'s transaction (lines 457-533 plus
the implicit `event_date` validity of line 544): account exists when supplied,
a changed room exists, is active, AVAILABLE and clear, an unchanged room is
re-checked when the schedule is touched, event type is active when supplied,
every payload service line passes validation and its scoped availability
check, and a usable event date can be computed (a truthy `event_date` or a
non-`undefined` `start_time`).  Each conjunct is an early `return`. -/
def updateTxOk (st : Store) (eventId : Nat) (existing : EventRec) (i : UpdateInput) : Bool :=
  (!jfTruthyNat i.account_id ||
    st.accounts.contains ((i.account_id.toOption).getD 0)) &&
  (!roomChanged existing i ||
    (match st.rooms.find? (fun r => decide (i.room_id.toOption = some r.room_id)) with
     | some r =>
         r.is_active && decide (r.status = "AVAILABLE") &&
         (!(jfDateTruthy i.start_time && truthyInt i.duration_hours) ||
           checkRoomAvailabilitySpec st ((i.room_id.toOption).getD 0)
             (jfDateVal i.start_time) (i.duration_hours.getD 0) (some eventId))
     | none => false)) &&
  (!(!roomChanged existing i &&
      (jfDateTruthy i.start_time || truthyInt i.duration_hours) &&
      truthyNat existing.room_id) ||
    (match st.rooms.find? (fun r => decide (existing.room_id = some r.room_id)) with
     | some r =>
         r.is_active && decide (r.status = "AVAILABLE") &&
         (!(jfDateTruthy i.start_time && truthyInt i.duration_hours) ||
           checkRoomAvailabilitySpec st (existing.room_id.getD 0)
             (jfDateVal i.start_time) (i.duration_hours.getD 0) (some eventId))
     | none => false)) &&
  (!jfTruthyNat i.event_type_id ||
    (match st.eventTypes.find? (fun t => decide (some t.type_id = i.event_type_id.toOption)) with
     | some t => t.is_active
     | none => false)) &&
  (i.event_services.all fun s =>
    validateEventServiceOk s &&
    (!(truthyNat s.variation_id && s.scheduled_time.isSome && truthyInt s.duration_hours) ||
      (checkVariationAvailability st.eventServices st.variations s.variation_id
        s.scheduled_time s.duration_hours).isValid)) &&
  (i.event_date.isSome || decide (i.start_time ≠ JsField.undef))

/-- The `Event` row written by `event.update` (lines 535-552): every field
whose payload entry is `undefined` keeps its stored value — except
`event_date`, which falls back to midnight of the payload `start_time`
(`null` reading as epoch 0) whenever the payload `event_date` is falsy. -/
def updateTxEvent (existing : EventRec) (i : UpdateInput) (cost : Int) : EventRec :=
  { event_id := existing.event_id
    event_name := match i.event_name with
      | some s => s.trim
      | none => existing.event_name
    description := match i.description with
      | .undef => existing.description
      | .null => none
      | .val s => if s.trim = "" then none else some s.trim
    start_time := match i.start_time with
      | .undef => existing.start_time
      | .null => none
      | .val t => some t
    end_time := match i.end_time with
      | .undef => existing.end_time
      | .null => none
      | .val t => some t
    event_date :=
      if i.event_date.isSome then i.event_date
      else some (dayStart (jfDateVal i.start_time))
    estimated_cost := some cost
    final_cost := match i.final_cost with
      | .undef => existing.final_cost
      | .null => some 0
      | .val n => some n
    room_service_fee := match i.room_service_fee with
      | .undef => existing.room_service_fee
      | .null => some 0
      | .val n => some n
    status := match i.status with
      | some s => s
      | none => existing.status
    account_id := match i.account_id with
      | .undef => existing.account_id
      | .null => none
      | .val n => if n = 0 then none else some n
    room_id := match i.room_id with
      | .undef => existing.room_id
      | .null => none
      | .val n => if n = 0 then none else some n
    event_type_id := match i.event_type_id with
      | .undef => existing.event_type_id
      | .null => none
      | .val n => if n = 0 then none else some n }

/-- The wholesale service-line replacement of `updateEvent` (lines 561-579):
an empty payload list changes nothing; a non-empty one deletes every stored
line of the event and inserts exactly the supplied set. -/
def replaceServiceLines (st : Store) (eventId idBase : Nat) (lines : List ServiceLine) : Store :=
  if lines.isEmpty then st
  else
    { st with
      eventServices := st.eventServices.filter (fun l => decide (l.event_id ≠ eventId))
        ++ storedLinesOf eventId idBase lines
      nextEventServiceId := idBase + lines.length }

/-- The invoice rewrite of `updateEvent` (lines 581-641): only when the newly
computed cost differs from the stored one and an invoice exists, its total is
updated, all its detail rows are deleted, and fresh rows are created — a ROOM
row for `room_id || existingEvent.room_id` (a missing room row here throws and
rolls the transaction back, hence `none`) and one SERVICE row per payload
line. -/
def invoiceRewrite (st : Store) (eventId : Nat) (existing : EventRec) (i : UpdateInput)
    (cost : Int) : Option (List InvoiceRec × List InvoiceDetailRec) :=
  if some cost ≠ existing.estimated_cost then
    match st.invoices.find? (fun v => decide (v.event_id = eventId)) with
    | none => some (st.invoices, st.invoiceDetails)
    | some inv =>
        let newInvoices := st.invoices.map fun (v : InvoiceRec) =>
          if v.invoice_id = inv.invoice_id then { v with total_amount := cost } else v
        let clearedDetails := st.invoiceDetails.filter fun d =>
          decide (d.invoice_id ≠ inv.invoice_id)
        let ridOpt : Option Nat :=
          if jfTruthyNat i.room_id then i.room_id.toOption
          else if truthyNat existing.room_id then existing.room_id else none
        if truthyNat ridOpt then
          match st.rooms.find? (fun r => decide (ridOpt = some r.room_id)) with
          | none => none
          | some room =>
              some (newInvoices, clearedDetails ++ [roomDetail inv.invoice_id room]
                ++ i.event_services.map (serviceDetail st.variations inv.invoice_id))
        else
          some (newInvoices, clearedDetails
            ++ i.event_services.map (serviceDetail st.variations inv.invoice_id))
  else some (st.invoices, st.invoiceDetails)

/-- Embedding of `updateEvent`'s lookup plus transaction (event.service.js
lines 404-647, with the CUSTOMER ownership/lead-time policy and the payload
field validation — which only turn successes into failures — ahead of the
part modelled here): the event is looked up, the guard conjunction models the
early error returns, and a successful run updates the event row, replaces the
service lines wholesale when a non-empty set is supplied, and rewrites the
invoice when the cost changed. -/
def updateEventTx (st : Store) (eventId : Nat) (i : UpdateInput) :
    Option (Store × EventRec) :=
  match st.events.find? (fun e => decide (e.event_id = eventId)) with
  | none => none
  | some existing =>
      if updateTxOk st eventId existing i then
        let cost := updateCalculatedCost st existing i
        let updated := updateTxEvent existing i cost
        let st1 := { st with
          events := st.events.map fun e => if e.event_id = eventId then updated else e }
        let st2 := replaceServiceLines st1 eventId st.nextEventServiceId i.event_services
        (invoiceRewrite st2 eventId existing i cost).map fun p =>
          ({ st2 with invoices := p.1, invoiceDetails := p.2 }, updated)
      else none

/-- Embedding of `toggleEventStatus` (lines 862-893): a missing event is a
not-found failure; otherwise PENDING flips to CONFIRMED and anything else
flips to PENDING, and the updated status is persisted. -/
def toggleEventStatus (st : Store) (eventId : Nat) : Option (Store × String) :=
  match st.events.find? (fun e => decide (e.event_id = eventId)) with
  | none => none
  | some ev =>
      let newStatus := if ev.status = "PENDING" then "CONFIRMED" else "PENDING"
      some
        ({ st with
            events := st.events.map fun e =>
              if e.event_id = eventId then { e with status := newStatus } else e },
         newStatus)

/-- Outcome of `deleteEvent`: the not-found failure, the dependency refusal
carrying the reported counts, or the committed deletion carrying the reported
deleted counts.  The store field is the (unchanged, on the first two) state. -/
inductive DeleteResult where
  | notFound : Store → DeleteResult
  | refused : Store → Nat → Nat → Nat → Bool → DeleteResult
  | deleted : Store → Nat → Nat → Nat → Nat → DeleteResult
  deriving Repr, DecidableEq

/-- The event's dependent service lines gathered by `deleteEvent` (line 806). -/
def depServices (st : Store) (eventId : Nat) : List EventServiceRec :=
  st.eventServices.filter fun l => decide (l.event_id = eventId)

/-- The event's invoice gathered by `deleteEvent` (line 807, at most one). -/
def depInvoice (st : Store) (eventId : Nat) : Option InvoiceRec :=
  st.invoices.find? fun v => decide (v.event_id = eventId)

/-- The event's dependent payments gathered by `deleteEvent` (line 808). -/
def depPayments (st : Store) (eventId : Nat) : List PaymentRec :=
  st.payments.filter fun p => decide (p.event_id = eventId)

/-- The event's dependent reviews gathered by `deleteEvent` (line 809). -/
def depReviews (st : Store) (eventId : Nat) : List ReviewRec :=
  st.reviews.filter fun r => decide (r.event_id = eventId)

/-- The dependency test of `deleteEvent` (lines 817-821). -/
def hasDeps (st : Store) (eventId : Nat) : Bool :=
  decide (0 < (depServices st eventId).length) || (depInvoice st eventId).isSome ||
    decide (0 < (depPayments st eventId).length) ||
    decide (0 < (depReviews st eventId).length)

/-- The dependent-row deletions of the `forceDelete` branch (lines 836-844). -/
def forceDeleteStore (st : Store) (eventId : Nat) : Store :=
  { st with
    eventServices := st.eventServices.filter fun l => decide (l.event_id ≠ eventId)
    payments := st.payments.filter fun p => decide (p.event_id ≠ eventId)
    reviews := st.reviews.filter fun r => decide (r.event_id ≠ eventId)
    invoices := match depInvoice st eventId with
      | some inv => st.invoices.filter fun v => decide (v.invoice_id ≠ inv.invoice_id)
      | none => st.invoices
    invoiceDetails := match depInvoice st eventId with
      | some inv =>
          st.invoiceDetails.filter fun d => decide (d.invoice_id ≠ inv.invoice_id)
      | none => st.invoiceDetails }

/-- Embedding of `deleteEvent` (lines 797-859): dependency counts are
gathered, a dependent event without `forceDelete` is refused with the exact
counts, and otherwise the dependents (under `forceDelete`) and the event are
deleted inside one transaction. -/
def deleteEvent (st : Store) (eventId : Nat) (forceDelete : Bool) : DeleteResult :=
  match st.events.find? (fun e => decide (e.event_id = eventId)) with
  | none => .notFound st
  | some _ =>
      if hasDeps st eventId && !forceDelete then
        .refused st (depServices st eventId).length (depPayments st eventId).length
          (depReviews st eventId).length (depInvoice st eventId).isSome
      else
        let st1 := if forceDelete then forceDeleteStore st eventId else st
        .deleted { st1 with events := st1.events.filter fun e => decide (e.event_id ≠ eventId) }
          (if forceDelete then (depServices st eventId).length else 0)
          (if forceDelete then (depPayments st eventId).length else 0)
          (if forceDelete then (depReviews st eventId).length else 0)
          (if forceDelete && (depInvoice st eventId).isSome then 1 else 0)

/-- The pagination metadata of `getAllEvents` (lines 743-752). -/
structure Pagination where
  page : Nat
  limit : Nat
  totalCount : Nat
  totalPages : Nat
  hasNextPage : Bool
  hasPreviousPage : Bool
  deriving Repr, DecidableEq

/-- Embedding of the read/metadata core of `getAllEvents` (lines 724-752) over
the filtered, ordered row list the Prisma query produces: `skip`/`take`
windowing and the pagination envelope with `Math.ceil(totalCount / limit)`
pages. -/
def getAllEventsPage (matching : List EventRec) (page limit : Nat) :
    List EventRec × Pagination :=
  let skip := (page - 1) * limit
  let events := (matching.drop skip).take limit
  let totalCount := matching.length
  let totalPages := (totalCount + limit - 1) / limit
  (events,
   { page := page, limit := limit, totalCount := totalCount, totalPages := totalPages
     hasNextPage := decide (page < totalPages)
     hasPreviousPage := decide (1 < page) })

/-- A fixture variation for the availability check. -/
def c1Variation : VariationRec :=
  { variation_id := 1, is_active := true, base_price := some 10
    variation_name := "Decoration" }

/-- A fixture CONFIRMED booking of variation 1 over the window 10:00-12:00
(epoch hours 10-12, stored duration 2). -/
def c1Booked : EventServiceRec :=
  { event_service_id := 1, event_id := 1, service_id := 1, variation_id := some 1
    quantity := 1, custom_price := none, notes := none, status := "CONFIRMED"
    scheduled_time := some (10 * hourMs), duration_hours := some 2 }

/-- C1: for an availability check of an active variation with proposed window
[t, t + dur hours), a stored CONFIRMED booking of that variation starting at
`s` with its stored duration is reported as a conflict exactly when
`t < s + duration` and `t + dur > s`; windows merely touching at an endpoint
are never conflicts; the result is negative exactly when the conflict list is
non-empty, and that list carries the conflicting records. -/
theorem c1_conflict_iff (stored : List EventServiceRec) (variations : List VariationRec)
    (vid : Nat) (t dur : Int) (v : VariationRec)
    (hvid : vid ≠ 0) (hdur : dur ≠ 0)
    (hfound : variations.find? (fun w => decide (some w.variation_id = some vid)) = some v)
    (hactive : v.is_active = true)
    (ev : EventServiceRec) (hmem : ev ∈ stored)
    (hvar : ev.variation_id = some vid) (hconf : ev.status = "CONFIRMED") (s : Int)
    (hs : ev.scheduled_time = some s)
    (r : AvailResult)
    (hr : r = checkVariationAvailability stored variations (some vid) (some t) (some dur)) :
    (ev ∈ r.conflictingEvents ↔
      (t < s + ev.duration_hours.getD 0 * hourMs ∧ t + dur * hourMs > s)) ∧
    (r.isValid = true ↔ r.conflictingEvents = []) ∧
    (t + dur * hourMs = s → ev ∉ r.conflictingEvents) ∧
    (t = s + ev.duration_hours.getD 0 * hourMs → ev ∉ r.conflictingEvents) := by
  have hkey :
      ev ∈ conflictingOf stored (some vid) t (t + dur * hourMs) ↔
        (t < s + ev.duration_hours.getD 0 * hourMs ∧ t + dur * hourMs > s) := by
    unfold conflictingOf
    rw [List.mem_filter, List.mem_filter]
    simp only [hvar, hconf, hs, Option.getD_some, Bool.and_eq_true, decide_eq_true_eq]
    constructor
    · rintro ⟨⟨_, _⟩, h4, h5⟩
      exact ⟨h4, h5⟩
    · rintro ⟨h4, h5⟩
      refine ⟨⟨hmem, ?_⟩, h4, h5⟩
      simp [le_of_lt h5]
  have hg : (truthyNat (some vid) && (Option.isSome (some t)) && truthyInt (some dur)) = true := by
    simp [truthyNat, truthyInt, hvid, hdur]
  rw [checkVariationAvailability, hg] at hr
  simp only [Bool.not_true, Bool.false_eq_true, if_false, Option.getD_some] at hr
  rw [hfound] at hr
  simp only [hactive, Bool.not_true, Bool.false_eq_true, if_false] at hr
  by_cases hc : 0 < (conflictingOf stored (some vid) t (t + dur * hourMs)).length
  · rw [if_pos hc] at hr
    subst hr
    refine ⟨hkey, ?_, ?_, ?_⟩
    · simp only [Bool.false_eq_true, false_iff]
      intro hnil
      rw [hnil] at hc
      simp at hc
    · intro htouch hin
      have := hkey.mp hin
      omega
    · intro htouch hin
      have := hkey.mp hin
      omega
  · rw [if_neg hc] at hr
    subst hr
    have hnil : conflictingOf stored (some vid) t (t + dur * hourMs) = [] := by
      cases hval : conflictingOf stored (some vid) t (t + dur * hourMs) with
      | nil => rfl
      | cons a l => rw [hval] at hc; simp at hc
    refine ⟨?_, by simp, by simp, by simp⟩
    rw [← hkey, hnil]

/-- Witness: a proposed 11:00 one-hour slot conflicts with the stored
10:00-12:00 CONFIRMED booking and is reported in the conflict list. -/
theorem c1_conflict_iff_witness :
    c1Booked ∈ (checkVariationAvailability [c1Booked] [c1Variation] (some 1)
      (some (11 * hourMs)) (some 1)).conflictingEvents :=
  (c1_conflict_iff [c1Booked] [c1Variation] 1 (11 * hourMs) 1 c1Variation
    (by decide) (by decide) (by decide) rfl c1Booked (by simp) rfl rfl (10 * hourMs) rfl
    _ rfl).1.mpr (by constructor <;> decide)

/-- An empty database state. -/
def emptyStore : Store :=
  { accounts := [], rooms := [], variations := [], eventTypes := [], events := []
    eventServices := [], invoices := [], invoiceDetails := [], payments := []
    reviews := [], notifications := [], nextEventId := 1, nextInvoiceId := 1
    nextEventServiceId := 1 }

/-- The C2 claim's cost rule for one service line, exactly as worded:
`(custom_price if present, else the variation's base_price) × quantity with
quantity defaulting to 1` when absent. -/
def c2ClaimedLineCost (variations : List VariationRec) (s : ServiceLine) : Int :=
  let vbp := match s.variation_id with
    | some vid =>
        match variations.find? (fun v => decide (some v.variation_id = some vid)) with
        | some v => v.base_price.getD 0
        | none => 0
    | none => 0
  (match s.custom_price with
   | some c => c
   | none => vbp) * s.quantity.getD 1

/-- The C2 claim's total-cost rule, exactly as worded: the caller-supplied
override (0 if absent), plus — when a room is attached — its base price plus
`hourly_rate × duration_hours` when a duration is known, plus every service
line's claimed cost. -/
def c2ClaimedCost (st : Store) (i : CreateInput) : Int :=
  i.estimated_cost.getD 0 +
  (match i.room_id with
   | some _ =>
       match st.rooms.find? (fun r => decide (some r.room_id = i.room_id)) with
       | some room => room.base_price.getD 0 +
           room.hourly_rate.getD 0 * i.duration_hours.getD 0
       | none => 0
   | none => 0) +
  (i.event_services.map (c2ClaimedLineCost st.variations)).sum

/-- C2 amended: the same rule with the JS falsy fallback made explicit — a
custom price that is present but zero falls back to the variation's base
price (a room or variation is attached when its id is truthy, i.e. non-zero). -/
def c2AmendedLineCost (variations : List VariationRec) (s : ServiceLine) : Int :=
  let vbp :=
    if truthyNat s.variation_id then
      match variations.find? (fun v => decide (some v.variation_id = s.variation_id)) with
      | some v => v.base_price.getD 0
      | none => 0
    else 0
  (match s.custom_price with
   | some c => if c = 0 then vbp else c
   | none => vbp) * s.quantity.getD 1

/-- C2 amended, total: override (0 if absent or zero), plus the attached
room's base price plus `hourly_rate × duration_hours`, plus every service
line's amended cost. -/
def c2AmendedCost (st : Store) (i : CreateInput) : Int :=
  i.estimated_cost.getD 0 +
  (if truthyNat i.room_id then
     match st.rooms.find? (fun r => decide (some r.room_id = i.room_id)) with
     | some room => room.base_price.getD 0 +
         room.hourly_rate.getD 0 * i.duration_hours.getD 0
     | none => 0
   else 0) +
  (i.event_services.map (c2AmendedLineCost st.variations)).sum

/-- A fixture variation priced 10 for the C2 cost claims. -/
def c2Variation : VariationRec :=
  { variation_id := 1, is_active := true, base_price := some 10
    variation_name := "Balloons" }

/-- A fixture service line with a present-but-zero custom price. -/
def c2Line : ServiceLine :=
  { service_id := 1, variation_id := some 1, quantity := some 1
    custom_price := some 0, notes := none, status := none
    scheduled_time := none, duration_hours := none }

/-- A fixture store holding only the priced variation. -/
def c2Store : Store := { emptyStore with variations := [c2Variation] }

/-- A fixture create payload with the zero-custom-price line. -/
def c2Input : CreateInput :=
  { event_name := "Gala", description := none, start_time := none
    end_time := none, event_date := some 1, estimated_cost := none
    final_cost := none, room_service_fee := none, account_id := none
    room_id := none, event_type_id := none, status := none
    event_services := [c2Line], duration_hours := none }

/-- C2 as stated is false on the code: a successful creation whose single
service line carries the present custom price 0 over a variation priced 10
stores estimated cost 10 (the JS `||` treats 0 as absent and falls back to
the base price), while the claim's formula yields 0. -/
theorem c2_claim_counterexample :
    (createEventTx c2Store c2Input false).map (fun r => r.2.estimated_cost) =
      some (some 10) ∧
    c2ClaimedCost c2Store c2Input = 0 ∧ (10 : Int) ≠ 0 := by
  refine ⟨by decide, by decide, by decide⟩

/-- The JS `a || 0` of a nullable number is plain defaulting. -/
theorem jsOr_zero (a : Option Int) : jsOr a 0 = a.getD 0 := by
  cases a with
  | none => rfl
  | some n =>
      unfold jsOr
      split <;> simp_all

/-- One service line's code cost agrees with the amended claim rule on every
line the validator accepts (its quantity, when present, is at least 1). -/
theorem serviceCost_eq_amended (variations : List VariationRec) (s : ServiceLine)
    (hval : validateEventServiceOk s = true) :
    serviceCost variations s = c2AmendedLineCost variations s := by
  have hq : jsOr s.quantity 1 = s.quantity.getD 1 := by
    unfold validateEventServiceOk at hval
    simp only [Bool.and_eq_true, decide_eq_true_eq] at hval
    cases hqv : s.quantity with
    | none => rfl
    | some q =>
        have h2 := hval.1.1.2
        rw [hqv] at h2
        simp only [decide_eq_true_eq] at h2
        show (if q = 0 then 1 else q) = q
        split <;> omega
  unfold serviceCost c2AmendedLineCost
  rw [hq]
  cases s.custom_price <;> rfl

/-- The guarded hourly component of the code equals the plain product of the
defaulted hourly rate and duration. -/
theorem hourlyPart_eq (h d : Option Int) :
    (if truthyInt d && truthyInt h then h.getD 0 * d.getD 0 else 0) =
      h.getD 0 * d.getD 0 := by
  rcases d with _ | dv
  · simp [truthyInt]
  · rcases h with _ | hv
    · simp [truthyInt]
    · by_cases hd0 : dv = 0
      · subst hd0
        simp [truthyInt]
      · by_cases hh0 : hv = 0
        · subst hh0
          simp [truthyInt]
        · simp [truthyInt, hd0, hh0]

/-- The create-path cost agrees with the amended claim rule whenever every
payload line passes validation. -/
theorem createCost_eq_amended (st : Store) (i : CreateInput)
    (hval : ∀ s ∈ i.event_services, validateEventServiceOk s = true) :
    createCalculatedCost st i = c2AmendedCost st i := by
  unfold createCalculatedCost c2AmendedCost
  rw [jsOr_zero]
  congr 1
  · congr 1
    by_cases hro : truthyNat i.room_id
    · simp only [hro, if_true]
      cases hf : st.rooms.find? (fun r => decide (some r.room_id = i.room_id)) with
      | none => rfl
      | some room =>
          simp only []
          rw [hourlyPart_eq]
    · simp only [hro]
      simp
  · congr 1
    exact List.map_congr_left fun s hs => serviceCost_eq_amended st.variations s (hval s hs)

/-- C2 (amended): for every successful booking creation the stored estimated
cost equals the amended rule — the caller-supplied override (0 if absent),
plus the attached room's base price plus `hourly_rate × duration_hours`, plus,
for each service line, (custom_price if present and non-zero, else the
variation's base_price) × quantity with quantity defaulting to 1. -/
theorem c2_cost_amended (st : Store) (i : CreateInput) (nf : Bool) (st' : Store)
    (ev : EventRec) (h : createEventTx st i nf = some (st', ev)) :
    ev.estimated_cost = some (c2AmendedCost st i) := by
  unfold createEventTx at h
  split at h
  · rename_i hok
    rw [Option.some.injEq, Prod.mk.injEq] at h
    obtain ⟨-, rfl⟩ := h
    show some (createCalculatedCost st i) = some (c2AmendedCost st i)
    rw [createCost_eq_amended]
    intro s hs
    unfold createTxOk at hok
    simp only [Bool.and_eq_true] at hok
    have hall := hok.1.2
    rw [List.all_eq_true] at hall
    exact (Bool.and_eq_true _ _).mp (hall s hs) |>.1
  · exact absurd h (by simp)

/-- Witness: the amended cost theorem applied at the concrete fixture. -/
theorem c2_cost_amended_witness :
    (createTxEvent c2Store c2Input).estimated_cost =
      some (c2AmendedCost c2Store c2Input) :=
  c2_cost_amended c2Store c2Input false (createTxFinal c2Store c2Input false)
    (createTxEvent c2Store c2Input) rfl

/-- The fixture room of the spec's own pricing scenario: base 100, hourly 20. -/
def c3Room : RoomRec :=
  { room_id := 1, is_active := true, status := "AVAILABLE", base_price := some 100
    hourly_rate := some 20, room_name := "Hall A" }

/-- The fixture service line of the scenario: custom price 50, quantity 2. -/
def c3Line : ServiceLine :=
  { service_id := 1, variation_id := none, quantity := some 2
    custom_price := some 50, notes := none, status := none
    scheduled_time := none, duration_hours := none }

/-- A fixture store holding only the priced room. -/
def c3Store : Store := { emptyStore with rooms := [c3Room] }

/-- The scenario's create payload: room 1 for 2 hours plus the 50 x 2 line. -/
def c3Input : CreateInput :=
  { event_name := "Wedding", description := none, start_time := none
    end_time := none, event_date := some 1, estimated_cost := none
    final_cost := none, room_service_fee := none, account_id := none
    room_id := some 1, event_type_id := none, status := none
    event_services := [c3Line], duration_hours := some 2 }

/-- C3 fails on the code (code bug): at the spec's own scenario (room base 100,
hourly 20, duration 2, one 50 x 2 service line) the creation succeeds and
writes an invoice with total 240, but the detail rows sum to 200 — the ROOM
row's subtotal is only the base price, omitting the hourly component that the
total includes. -/
theorem c3_invoice_total_mismatch :
    createEventTx c3Store c3Input false =
      some (createTxFinal c3Store c3Input false, createTxEvent c3Store c3Input) ∧
    ((createTxFinal c3Store c3Input false).invoices.map
      (fun v => v.total_amount)).sum = 240 ∧
    ((createTxFinal c3Store c3Input false).invoiceDetails.map
      (fun d => d.subtotal.getD 0)).sum = 200 ∧
    (240 : Int) ≠ 200 := by
  refine ⟨rfl, by decide, by decide, by decide⟩

/-- The fixture room for the update-cost claim (same pricing, own record). -/
def c4Room : RoomRec :=
  { room_id := 1, is_active := true, status := "AVAILABLE", base_price := some 100
    hourly_rate := some 20, room_name := "Hall B" }

/-- The stored event before the update: room 1 attached, stored cost 240. -/
def c4Existing : EventRec :=
  { event_id := 1, event_name := "Expo", description := none
    start_time := some (100 * dayMs), end_time := none, event_date := some 0
    estimated_cost := some 240, final_cost := none, room_service_fee := none
    status := "PENDING", account_id := none, room_id := some 1
    event_type_id := none }

/-- The stored service line backing the 240 (50 x 2 = 100 on top of 140). -/
def c4StoredLine : EventServiceRec :=
  { event_service_id := 1, event_id := 1, service_id := 1, variation_id := none
    quantity := 2, custom_price := some 50, notes := none, status := "CONFIRMED"
    scheduled_time := none, duration_hours := none }

/-- A fixture store with the room, the event and its stored line. -/
def c4Store : Store :=
  { emptyStore with
    rooms := [c4Room]
    events := [c4Existing]
    eventServices := [c4StoredLine]
    nextEventServiceId := 2 }

/-- The payload service line: the very same 50 x 2 composition, re-supplied. -/
def c4Line : ServiceLine :=
  { service_id := 1, variation_id := none, quantity := some 2
    custom_price := some 50, notes := none, status := none
    scheduled_time := none, duration_hours := none }

/-- The update payload: nothing but the re-supplied service line list. -/
def c4Input : UpdateInput :=
  { event_name := none, description := .undef, start_time := .undef
    end_time := .undef, event_date := some 1, estimated_cost := none
    final_cost := .undef, room_service_fee := .undef, account_id := .undef
    room_id := .undef, event_type_id := .undef, status := none
    event_services := [c4Line], duration_hours := none }

/-- The C4 claim's section-4.3 rule recomputed from scratch over an updated
event's resulting composition: the caller override (0 when absent), plus the
resulting room's base price plus its hourly rate times the known duration
(the payload duration), plus (custom price if present, else the variation
base price) times quantity over the event's resulting stored service lines. -/
def c4ScratchCost (st : Store) (ev : EventRec) (estOverride durationH : Option Int) : Int :=
  estOverride.getD 0 +
  (match ev.room_id with
   | some rid =>
       match st.rooms.find? (fun r => decide (some r.room_id = some rid)) with
       | some room => room.base_price.getD 0 + room.hourly_rate.getD 0 * durationH.getD 0
       | none => 0
   | none => 0) +
  ((st.eventServices.filter fun l => decide (l.event_id = ev.event_id)).map fun l =>
     (match l.custom_price with
      | some c => c
      | none =>
          match l.variation_id with
          | some vid =>
              match st.variations.find? (fun v => decide (some v.variation_id = some vid)) with
              | some v => v.base_price.getD 0
              | none => 0
          | none => 0) * l.quantity).sum

/-- C4 fails on the code (code bug): updating the event stored at cost 240
with the very same single 100-cost service line succeeds and stores 340 — the
previous stored cost incrementally patched with the re-supplied line — while
the section-4.3 rule recomputed from scratch over the resulting room,
duration and service-line composition yields 200. -/
theorem c4_update_cost_drift :
    ((updateEventTx c4Store 1 c4Input).map fun r => r.2.estimated_cost) =
      some (some 340) ∧
    ((updateEventTx c4Store 1 c4Input).map fun r =>
        c4ScratchCost r.1 r.2 c4Input.estimated_cost c4Input.duration_hours) =
      some 200 ∧
    (340 : Int) ≠ 200 := by
  refine ⟨by decide, by decide, by decide⟩

/-- C5: an update supplying no service lines leaves the stored lines exactly
as they were; a non-empty supplied list wholesale-replaces the event's
lines — every stored line of the event is deleted and exactly the supplied
set is inserted, other events' lines untouched. -/
theorem c5_service_lines_replacement (st : Store) (eventId : Nat) (i : UpdateInput)
    (st' : Store) (ev : EventRec) (h : updateEventTx st eventId i = some (st', ev)) :
    (i.event_services = [] → st'.eventServices = st.eventServices) ∧
    (i.event_services ≠ [] →
      st'.eventServices =
        st.eventServices.filter (fun l => decide (l.event_id ≠ eventId))
          ++ storedLinesOf eventId st.nextEventServiceId i.event_services) := by
  unfold updateEventTx at h
  split at h
  · exact absurd h (by simp)
  · rename_i existing hfind
    split at h
    · rw [Option.map_eq_some'] at h
      obtain ⟨p, hp, hpair⟩ := h
      rw [Prod.mk.injEq] at hpair
      obtain ⟨rfl, -⟩ := hpair
      constructor
      · intro hempty
        simp only [hempty]
        rfl
      · intro hne
        show (replaceServiceLines _ eventId st.nextEventServiceId _).eventServices = _
        unfold replaceServiceLines
        rw [if_neg (by simpa using hne)]
    · exact absurd h (by simp)

/-- The stored event for the replacement witness. -/
def c5Existing : EventRec :=
  { event_id := 1, event_name := "Forum", description := none
    start_time := none, end_time := none, event_date := some 0
    estimated_cost := some 0, final_cost := none, room_service_fee := none
    status := "PENDING", account_id := none, room_id := none
    event_type_id := none }

/-- A stored service line of the event, to be left untouched. -/
def c5StoredLine : EventServiceRec :=
  { event_service_id := 1, event_id := 1, service_id := 3, variation_id := none
    quantity := 1, custom_price := some 5, notes := none, status := "CONFIRMED"
    scheduled_time := none, duration_hours := none }

/-- A fixture store with the event and its line. -/
def c5Store : Store :=
  { emptyStore with
    events := [c5Existing]
    eventServices := [c5StoredLine]
    nextEventServiceId := 2 }

/-- An update payload supplying no service lines at all. -/
def c5Input : UpdateInput :=
  { event_name := none, description := .undef, start_time := .undef
    end_time := .undef, event_date := some 1, estimated_cost := none
    final_cost := .undef, room_service_fee := .undef, account_id := .undef
    room_id := .undef, event_type_id := .undef, status := none
    event_services := [], duration_hours := none }

/-- Witness: the empty-list update leaves the stored lines unchanged. -/
theorem c5_service_lines_replacement_witness :
    ((updateEventTx c5Store 1 c5Input).map fun r => r.1.eventServices) =
      some c5Store.eventServices := by
  cases hE : updateEventTx c5Store 1 c5Input with
  | none => exact absurd hE (by decide)
  | some r =>
      have h' : updateEventTx c5Store 1 c5Input = some (r.1, r.2) := hE.trans rfl
      rw [Option.map_some']
      exact congrArg some ((c5_service_lines_replacement c5Store 1 c5Input r.1 r.2 h').1 rfl)

/-- The stored event for the untouched-fields claim: event date at day 0. -/
def c6Existing : EventRec :=
  { event_id := 1, event_name := "Fair", description := some "annual fair"
    start_time := some 0, end_time := some hourMs, event_date := some 0
    estimated_cost := some 0, final_cost := some 9, room_service_fee := some 3
    status := "PENDING", account_id := none, room_id := none
    event_type_id := none }

/-- A fixture store holding only that event. -/
def c6Store : Store := { emptyStore with events := [c6Existing] }

/-- An update payload touching only `start_time` (to just past day 1's
start); `event_date` is absent. -/
def c6Input : UpdateInput :=
  { event_name := none, description := .undef, start_time := .val (dayMs + 5)
    end_time := .undef, event_date := none, estimated_cost := none
    final_cost := .undef, room_service_fee := .undef, account_id := .undef
    room_id := .undef, event_type_id := .undef, status := none
    event_services := [], duration_hours := none }

/-- C6 as stated is false on the code: a successful update touching only
`start_time` rewrites the untouched `event_date` from day 0 to the start of
day 1 (midnight of the new `start_time`) instead of retaining it. -/
theorem c6_claim_counterexample :
    ((updateEventTx c6Store 1 c6Input).map fun r => r.2.event_date) =
      some (some dayMs) ∧
    c6Existing.event_date = some 0 ∧
    some (dayMs : Int) ≠ (some 0 : Option Int) := by
  refine ⟨by decide, rfl, by decide⟩

/-- C6 (amended): on every successful update, each optional field the payload
does not touch — name, description, start/end time, final cost, room-service
fee, account, room and event-type ids, status — retains its stored value;
`event_date` is the exception: when the payload carries no event date it is
recomputed as the day start of the payload `start_time` (an explicit `null`
start time reading as epoch 0) rather than retained. -/
theorem c6_untouched_fields_amended (st : Store) (eventId : Nat) (i : UpdateInput)
    (st' : Store) (ev : EventRec) (existing : EventRec)
    (hfind : st.events.find? (fun e => decide (e.event_id = eventId)) = some existing)
    (h : updateEventTx st eventId i = some (st', ev)) :
    (i.event_name = none → ev.event_name = existing.event_name) ∧
    (i.description = JsField.undef → ev.description = existing.description) ∧
    (i.start_time = JsField.undef → ev.start_time = existing.start_time) ∧
    (i.end_time = JsField.undef → ev.end_time = existing.end_time) ∧
    (i.final_cost = JsField.undef → ev.final_cost = existing.final_cost) ∧
    (i.room_service_fee = JsField.undef →
      ev.room_service_fee = existing.room_service_fee) ∧
    (i.account_id = JsField.undef → ev.account_id = existing.account_id) ∧
    (i.room_id = JsField.undef → ev.room_id = existing.room_id) ∧
    (i.event_type_id = JsField.undef → ev.event_type_id = existing.event_type_id) ∧
    (i.status = none → ev.status = existing.status) ∧
    (i.event_date = none →
      ev.event_date = some (dayStart (jfDateVal i.start_time))) := by
  unfold updateEventTx at h
  rw [hfind] at h
  split at h
  · rename_i heq
    exact absurd heq (by simp)
  · rename_i existing2 heq
    rw [Option.some.injEq] at heq
    subst heq
    split at h
    · rw [Option.map_eq_some'] at h
      obtain ⟨p, hp, hpair⟩ := h
      rw [Prod.mk.injEq] at hpair
      obtain ⟨-, rfl⟩ := hpair
      refine ⟨?_, ?_, ?_, ?_, ?_, ?_, ?_, ?_, ?_, ?_, ?_⟩ <;>
        intro hx <;> simp [updateTxEvent, hx]
    · exact absurd h (by simp)

/-- Witness: the amended frame theorem at the fixture — the untouched
description is retained. -/
theorem c6_untouched_fields_amended_witness :
    ((updateEventTx c6Store 1 c6Input).map fun r => r.2.description) =
      some c6Existing.description := by
  cases hE : updateEventTx c6Store 1 c6Input with
  | none => exact absurd hE (by decide)
  | some r =>
      have h' : updateEventTx c6Store 1 c6Input = some (r.1, r.2) := hE.trans rfl
      rw [Option.map_some']
      exact congrArg some
        ((c6_untouched_fields_amended c6Store 1 c6Input r.1 r.2 c6Existing (by decide)
          h').2.1 rfl)

/-- Rewriting the status of the event `eventId` commutes with finding it. -/
theorem find?_status_map (l : List EventRec) (eventId : Nat) (ns : String)
    (ev : EventRec) (h : l.find? (fun e => decide (e.event_id = eventId)) = some ev) :
    (l.map fun e =>
        if e.event_id = eventId then { e with status := ns } else e).find?
      (fun e => decide (e.event_id = eventId)) = some { ev with status := ns } := by
  induction l with
  | nil => simp at h
  | cons a t ih =>
      by_cases ha : a.event_id = eventId
      · rw [List.find?_cons_of_pos _ (by simpa using ha)] at h
        rw [Option.some.injEq] at h
        subst h
        simp only [List.map_cons, if_pos ha]
        rw [List.find?_cons_of_pos _ (by simpa using ha)]
      · rw [List.find?_cons_of_neg _ (by simpa using ha)] at h
        simp only [List.map_cons, if_neg ha]
        rw [List.find?_cons_of_neg _ (by simpa using ha)]
        exact ih h

/-- One toggle step, resolved: with the event found, the toggle writes the
flipped status and answers with it. -/
theorem toggleEventStatus_eq (st : Store) (eventId : Nat) (ev : EventRec)
    (hfind : st.events.find? (fun e => decide (e.event_id = eventId)) = some ev) :
    toggleEventStatus st eventId =
      some ({ st with events := st.events.map fun e =>
          if e.event_id = eventId then
            { e with status := if ev.status = "PENDING" then "CONFIRMED" else "PENDING" }
          else e },
        if ev.status = "PENDING" then "CONFIRMED" else "PENDING") := by
  unfold toggleEventStatus
  rw [hfind]

/-- C7: toggling maps a PENDING event to CONFIRMED and an event in any other
status to PENDING; starting from PENDING or CONFIRMED, toggling twice
restores the original status (indeed re-finds the original stored record). -/
theorem c7_toggle_status (st : Store) (eventId : Nat) (ev : EventRec)
    (hfind : st.events.find? (fun e => decide (e.event_id = eventId)) = some ev) :
    ∃ st1 : Store,
      toggleEventStatus st eventId =
        some (st1, if ev.status = "PENDING" then "CONFIRMED" else "PENDING") ∧
      (ev.status = "PENDING" ∨ ev.status = "CONFIRMED" →
        ∃ st2 : Store,
          toggleEventStatus st1 eventId = some (st2, ev.status) ∧
          st2.events.find? (fun e => decide (e.event_id = eventId)) = some ev) := by
  refine ⟨_, toggleEventStatus_eq st eventId ev hfind, ?_⟩
  intro hcase
  have hfind1 := find?_status_map st.events eventId
    (if ev.status = "PENDING" then "CONFIRMED" else "PENDING") ev hfind
  have h2 := toggleEventStatus_eq
    ({ st with events := st.events.map fun e =>
        if e.event_id = eventId then
          { e with status := if ev.status = "PENDING" then "CONFIRMED" else "PENDING" }
        else e })
    eventId _ hfind1
  have hflip2 :
      (if ({ ev with
          status := if ev.status = "PENDING" then "CONFIRMED" else "PENDING" } :
            EventRec).status = "PENDING" then "CONFIRMED" else "PENDING") =
        ev.status := by
    show (if (if ev.status = "PENDING" then "CONFIRMED" else "PENDING") = "PENDING"
      then "CONFIRMED" else "PENDING") = ev.status
    rcases hcase with hp | hp <;> rw [hp] <;> decide
  rw [hflip2] at h2
  refine ⟨_, h2, ?_⟩
  exact find?_status_map _ eventId ev.status
    ({ ev with status := if ev.status = "PENDING" then "CONFIRMED" else "PENDING" })
    hfind1

/-- A fixture PENDING event for the toggle witness. -/
def c7Event : EventRec :=
  { event_id := 1, event_name := "Demo", description := none, start_time := none
    end_time := none, event_date := some 0, estimated_cost := none
    final_cost := none, room_service_fee := none, status := "PENDING"
    account_id := none, room_id := none, event_type_id := none }

/-- A fixture store holding the PENDING event. -/
def c7Store : Store := { emptyStore with events := [c7Event] }

/-- Witness: toggling the PENDING fixture answers CONFIRMED. -/
theorem c7_toggle_status_witness :
    ((toggleEventStatus c7Store 1).map Prod.snd) = some "CONFIRMED" := by
  obtain ⟨st1, h1, -⟩ := c7_toggle_status c7Store 1 c7Event (by decide)
  rw [h1]
  rfl

/-- C8: deleting a missing id is a not-found failure; a dependent event
without `forceDelete` is refused with the exact dependent counts and the
store untouched; with `forceDelete` the deletion succeeds, reports the
counts, and leaves no service line, payment, review or event of that id and
no row of the event's invoice. -/
theorem c8_delete_event (st : Store) (eventId : Nat) (force : Bool) :
    (st.events.find? (fun e => decide (e.event_id = eventId)) = none →
      deleteEvent st eventId force = DeleteResult.notFound st) ∧
    (∀ ev, st.events.find? (fun e => decide (e.event_id = eventId)) = some ev →
      (hasDeps st eventId = true → force = false →
        deleteEvent st eventId force =
          DeleteResult.refused st (depServices st eventId).length
            (depPayments st eventId).length (depReviews st eventId).length
            (depInvoice st eventId).isSome) ∧
      (force = true → ∃ st2 : Store,
        deleteEvent st eventId true =
          DeleteResult.deleted st2 (depServices st eventId).length
            (depPayments st eventId).length (depReviews st eventId).length
            (if (depInvoice st eventId).isSome then 1 else 0) ∧
        (∀ l ∈ st2.eventServices, l.event_id ≠ eventId) ∧
        (∀ p ∈ st2.payments, p.event_id ≠ eventId) ∧
        (∀ r ∈ st2.reviews, r.event_id ≠ eventId) ∧
        (∀ e ∈ st2.events, e.event_id ≠ eventId) ∧
        (∀ inv, depInvoice st eventId = some inv →
          (∀ v ∈ st2.invoices, v.invoice_id ≠ inv.invoice_id) ∧
          (∀ d ∈ st2.invoiceDetails, d.invoice_id ≠ inv.invoice_id)))) := by
  constructor
  · intro hnone
    unfold deleteEvent
    rw [hnone]
  · intro ev hfind
    constructor
    · intro hdeps hforce
      subst hforce
      unfold deleteEvent
      rw [hfind]
      have hcond : (hasDeps st eventId && !false) = true := by
        rw [hdeps]
        rfl
      rw [hcond]
      rfl
    · intro hforce
      subst hforce
      have hcond : (hasDeps st eventId && !true) = false := by
        simp
      refine ⟨{ forceDeleteStore st eventId with
          events := (forceDeleteStore st eventId).events.filter
            fun e => decide (e.event_id ≠ eventId) }, ?_, ?_, ?_, ?_, ?_, ?_⟩
      · unfold deleteEvent
        rw [hfind, hcond]
        rfl
      · intro l hl
        simp only [forceDeleteStore, List.mem_filter, decide_eq_true_eq] at hl
        exact hl.2
      · intro p hp
        simp only [forceDeleteStore, List.mem_filter, decide_eq_true_eq] at hp
        exact hp.2
      · intro r hr
        simp only [forceDeleteStore, List.mem_filter, decide_eq_true_eq] at hr
        exact hr.2
      · intro e he
        simp only [List.mem_filter, decide_eq_true_eq] at he
        exact he.2
      · intro inv hinv
        constructor
        · intro v hv
          simp only [forceDeleteStore, hinv, List.mem_filter, decide_eq_true_eq] at hv
          exact hv.2
        · intro d hd
          simp only [forceDeleteStore, hinv, List.mem_filter, decide_eq_true_eq] at hd
          exact hd.2

/-- A fixture event with dependents for the deletion witness. -/
def c8Event : EventRec :=
  { event_id := 1, event_name := "Summit", description := none, start_time := none
    end_time := none, event_date := some 0, estimated_cost := some 100
    final_cost := none, room_service_fee := none, status := "PENDING"
    account_id := none, room_id := none, event_type_id := none }

/-- A fixture store where event 1 has two service lines, one payment, one
review and an invoice. -/
def c8Store : Store :=
  { emptyStore with
    events := [c8Event]
    eventServices :=
      [{ event_service_id := 1, event_id := 1, service_id := 1, variation_id := none
         quantity := 1, custom_price := some 10, notes := none, status := "CONFIRMED"
         scheduled_time := none, duration_hours := none },
       { event_service_id := 2, event_id := 1, service_id := 2, variation_id := none
         quantity := 1, custom_price := some 20, notes := none, status := "CONFIRMED"
         scheduled_time := none, duration_hours := none }]
    payments := [{ payment_id := 1, event_id := 1 }]
    reviews := [{ review_id := 1, event_id := 1 }]
    invoices :=
      [{ invoice_id := 1, total_amount := 100, event_id := 1, account_id := none
         status := "PENDING" }]
    invoiceDetails :=
      [{ invoice_id := 1, item_name := "item", quantity := 1, unit_price := some 100
         subtotal := some 100, item_type := "SERVICE", service_id := some 1
         variation_id := none }] }

/-- Witness: deleting the dependent fixture without `forceDelete` is refused
with the exact counts (2 service lines, 1 payment, 1 review, an invoice). -/
theorem c8_delete_event_witness :
    deleteEvent c8Store 1 false = DeleteResult.refused c8Store 2 1 1 true :=
  ((c8_delete_event c8Store 1 false).2 c8Event (by decide)).1 (by decide) rfl

/-- The committed booking tables written by the creation transaction do not
depend on the notifier outcome: only the notification log can differ. -/
theorem createTxFinal_committed (st : Store) (i : CreateInput) (nf : Bool) :
    (createTxFinal st i nf).events = (createTxFinal st i false).events ∧
    (createTxFinal st i nf).eventServices = (createTxFinal st i false).eventServices ∧
    (createTxFinal st i nf).invoices = (createTxFinal st i false).invoices ∧
    (createTxFinal st i nf).invoiceDetails =
      (createTxFinal st i false).invoiceDetails := by
  unfold createTxFinal createNotification
  cases nf
  · exact ⟨rfl, rfl, rfl, rfl⟩
  · by_cases hacc : truthyNat (createTxEvent st i).account_id = true
    · simp [hacc]
    · simp only [Bool.not_eq_true] at hacc
      simp [hacc]

/-- C9: the notifier is fire-and-forget — a notifier failure changes neither
the success of the creation transaction nor any committed booking data
(event, service lines, invoice, invoice details); and every successful
creation whose stored account id is truthy emits the booking-confirmation
notification when delivery succeeds. -/
theorem c9_notifier_independence (st : Store) (i : CreateInput) :
    ((createEventTx st i true).isSome ↔ (createEventTx st i false).isSome) ∧
    (∀ stT evT stF evF, createEventTx st i true = some (stT, evT) →
      createEventTx st i false = some (stF, evF) →
      evT = evF ∧ stT.events = stF.events ∧ stT.eventServices = stF.eventServices ∧
        stT.invoices = stF.invoices ∧ stT.invoiceDetails = stF.invoiceDetails) ∧
    (∀ st2 ev, createEventTx st i false = some (st2, ev) →
      truthyNat ev.account_id = true →
      ({ account_id := ev.account_id.getD 0
         title := "Booking Successful"
         message := "Your event \"" ++ ev.event_name ++ "\" has been booked successfully!"
         type := "CONFIRMATION" } : NotificationRec) ∈ st2.notifications) := by
  unfold createEventTx
  by_cases hok : createTxOk st i = true
  · simp only [hok, if_true]
    refine ⟨by simp, ?_, ?_⟩
    · intro stT evT stF evF hT hF
      rw [Option.some.injEq, Prod.mk.injEq] at hT hF
      obtain ⟨rfl, rfl⟩ := hT
      obtain ⟨rfl, rfl⟩ := hF
      exact ⟨rfl, createTxFinal_committed st i true⟩
    · intro st2 ev h hacc
      rw [Option.some.injEq, Prod.mk.injEq] at h
      obtain ⟨rfl, rfl⟩ := h
      unfold createTxFinal createNotification
      simp only [hacc, if_true, Bool.false_eq_true, if_false]
      rw [List.mem_append]
      right
      rw [List.mem_singleton]
  · simp only [Bool.not_eq_true] at hok
    simp only [hok, Bool.false_eq_true, if_false]
    refine ⟨by simp, ?_, ?_⟩
    · intro stT evT stF evF hT
      exact absurd hT (by simp)
    · intro st2 ev h
      exact absurd h (by simp)

/-- A fixture store holding account 7 for the notification witness. -/
def c9Store : Store := { emptyStore with accounts := [7] }

/-- A create payload booked by account 7, with no room or services. -/
def c9Input : CreateInput :=
  { event_name := "Meetup", description := none, start_time := none
    end_time := none, event_date := some 1, estimated_cost := some 30
    final_cost := none, room_service_fee := none, account_id := some 7
    room_id := none, event_type_id := none, status := none
    event_services := [], duration_hours := none }

/-- Witness: the successful fixture creation emits the confirmation
notification for account 7. -/
theorem c9_notifier_independence_witness :
    ({ account_id := (createTxEvent c9Store c9Input).account_id.getD 0
       title := "Booking Successful"
       message := "Your event \"" ++ (createTxEvent c9Store c9Input).event_name
         ++ "\" has been booked successfully!"
       type := "CONFIRMATION" } : NotificationRec) ∈
      (createTxFinal c9Store c9Input false).notifications :=
  (c9_notifier_independence c9Store c9Input).2.2
    (createTxFinal c9Store c9Input false) (createTxEvent c9Store c9Input)
    rfl (by decide)

/-- C10: for a validated page `p >= 1` and limit `l >= 1` over `matching`
result rows, the returned page holds at most `l` events, the reported total
count is the row count, `totalPages` is the ceiling of `totalCount / l`
(characterised as the least `k` with `totalCount <= k * l`), `hasNextPage`
holds exactly when `p < totalPages`, and `hasPreviousPage` exactly when
`p > 1`. -/
theorem c10_pagination (matching : List EventRec) (p l : Nat)
    (hp : 1 ≤ p) (hl : 1 ≤ l) :
    (getAllEventsPage matching p l).1.length ≤ l ∧
    (getAllEventsPage matching p l).2.totalCount = matching.length ∧
    (∀ k : Nat, matching.length ≤ k * l ↔
      (getAllEventsPage matching p l).2.totalPages ≤ k) ∧
    ((getAllEventsPage matching p l).2.hasNextPage = true ↔
      p < (getAllEventsPage matching p l).2.totalPages) ∧
    ((getAllEventsPage matching p l).2.hasPreviousPage = true ↔ 1 < p) := by
  refine ⟨?_, rfl, ?_, by simp [getAllEventsPage], by simp [getAllEventsPage]⟩
  · show ((matching.drop ((p - 1) * l)).take l).length ≤ l
    rw [List.length_take]
    exact min_le_left _ _
  · intro k
    show matching.length ≤ k * l ↔ (matching.length + l - 1) / l ≤ k
    rw [Nat.div_le_iff_le_mul_add_pred hl]
    constructor <;> intro h
    · calc matching.length + l - 1 ≤ k * l + l - 1 := by omega
        _ = l * k + (l - 1) := by
          rw [Nat.mul_comm]
          omega
    · have h2 : matching.length + l - 1 ≤ l * k + (l - 1) := h
      have h3 : l * k = k * l := Nat.mul_comm l k
      omega

/-- A fixture event row for the pagination witness. -/
def c10Event : EventRec :=
  { event_id := 1, event_name := "Row", description := none, start_time := none
    end_time := none, event_date := some 0, estimated_cost := none
    final_cost := none, room_service_fee := none, status := "PENDING"
    account_id := none, room_id := none, event_type_id := none }

/-- Witness: page 2 of limit 3 over 7 rows returns at most 3 events. -/
theorem c10_pagination_witness :
    (getAllEventsPage (List.replicate 7 c10Event) 2 3).1.length ≤ 3 :=
  (c10_pagination (List.replicate 7 c10Event) 2 3 (by decide) (by decide)).1

end WebEvent
